import Mathlib

/-!
Shallow embedding of the KRONJON DayZ Livonia heatmap mod.

Sources embedded:
* `scripts/4_world/entities/manbase/eAIBase.c` — per-agent throttled waypoint
  sampling (`OnScheduledTick`), death capture (`EEKilled`), waypoint
  construction (`GetWaypoint`), tracking registration (`OnSelectPlayer`).
* `scripts/5_mission/mission/missionserver.c` — session file naming
  (`OnInit`), periodic autosave (`OnUpdate`), final save (`OnMissionFinish`),
  guarded write (`SaveHeatmapData`).

Floats of the Enforce Script source are modelled as rationals (`ℚ`); the
engine simulation clock `GetGame().GetTime()` is a millisecond count
modelled as `Nat`; `GetGame().GetTime() / 1000` in the source is integer
division on `int`, modelled as `Nat` division.
-/

/-- A 3-component vector, as Enforce Script's `vector` of floats. -/
structure Vec3 where
  x : ℚ
  y : ℚ
  z : ℚ
  deriving DecidableEq, Repr

/-- A captured sample: a `vector` whose second component was overwritten with
a time value (see `GetWaypoint`). -/
abbrev Waypoint : Type := Vec3

/-- Translation of `eAIBase.GetWaypoint` (identical body in `ZombieBase`):
takes the entity position and overwrites component 1 with
`GetGame().GetTime() / 1000` (integer division of the millisecond clock). -/
def GetWaypoint (pos : Vec3) (timeMs : Nat) : Waypoint :=
  { pos with y := ((timeMs / 1000 : Nat) : ℚ) }

/-- The value of the Enforce Script constant `float.MAX` (single-precision
`FLT_MAX`), the initializer of `eAIBase.m_HeatmapTime`. -/
def floatMax : ℚ := 340282346638528859811704183484516925440

/-- Modelled from the spec: the thresholds `g_Game.HEATMAP_TICK_TIME` and
`g_Game.HEATMAP_TICK_TIME_VEHICLE` are read by `eAIBase.OnScheduledTick` but
their defining code is not among the provided sources. The spec (§4.2) only
fixes `specialThreshold < normalThreshold`, so they are carried as parameters
here. -/
structure GameConfig where
  HEATMAP_TICK_TIME : ℚ
  HEATMAP_TICK_TIME_VEHICLE : ℚ

/-- Modelled from the spec: example threshold values from the spec's §8
scenario, `normalThreshold = 10` s and `specialThreshold = 2` s. -/
def exampleConfig : GameConfig :=
  { HEATMAP_TICK_TIME := 10, HEATMAP_TICK_TIME_VEHICLE := 2 }

/-- The per-agent tracking state of `eAIBase`: the throttle accumulator
`m_HeatmapTime`, the registered trajectory `m_AIWayPoints` (`none` models the
engine null reference before `OnSelectPlayer` runs), and the engine-provided
entity flags read by the guard (`IsAlive()`, `IsPlayerSelected()`). -/
structure AgentState where
  m_HeatmapTime : ℚ
  m_AIWayPoints : Option (List Waypoint)
  alive : Bool
  selected : Bool
  deriving DecidableEq, Repr

/-- A freshly constructed `eAIBase`: field initializers give
`m_HeatmapTime = float.MAX` and a null `m_AIWayPoints`; a fresh entity is
alive and not yet selected. -/
def initAgent : AgentState :=
  { m_HeatmapTime := floatMax, m_AIWayPoints := none,
    alive := true, selected := false }

/-- Translation of `eAIBase.OnSelectPlayer` (server path): allocates a fresh
empty trajectory into `m_AIWayPoints` and registers it into the session
aggregate (registration is by reference, so the aggregate entry is the very
list carried here); the engine now reports the player as selected. -/
def OnSelectPlayer (s : AgentState) : AgentState :=
  { s with m_AIWayPoints := some [], selected := true }

/-- The per-tick inputs the engine supplies to `eAIBase.OnScheduledTick`:
the tick delta, and the entity position, clock and `IsInVehicle()` flag
read inside the call. -/
structure TickInput where
  pos : Vec3
  timeMs : Nat
  deltaTime : ℚ
  isInVehicle : Bool
  deriving DecidableEq, Repr

/-- Translation of `eAIBase.OnScheduledTick`: bail out when the trajectory is
null or the entity is not selected or not alive; otherwise add `deltaTime` to
`m_HeatmapTime` and, when `m_HeatmapTime >= HEATMAP_TICK_TIME_VEHICLE`
while in a vehicle or `m_HeatmapTime >= HEATMAP_TICK_TIME` unconditionally,
append `GetWaypoint()` and reset `m_HeatmapTime` to `0.0`. The returned
`Bool` records whether a waypoint was appended this tick. -/
def OnScheduledTick (g : GameConfig) (s : AgentState) (inp : TickInput) :
    AgentState × Bool :=
  match s.m_AIWayPoints with
  | none => (s, false)
  | some wps =>
    if !s.selected || !s.alive then (s, false)
    else
      let t := s.m_HeatmapTime + inp.deltaTime
      if (g.HEATMAP_TICK_TIME_VEHICLE ≤ t ∧ inp.isInVehicle = true)
          ∨ g.HEATMAP_TICK_TIME ≤ t then
        ({ s with m_HeatmapTime := 0,
                  m_AIWayPoints := some (wps ++ [GetWaypoint inp.pos inp.timeMs]) },
         true)
      else
        ({ s with m_HeatmapTime := t }, false)

/-- A finite sequence of scheduler ticks, returning the final agent state and
the per-tick list of fire decisions. -/
def runTicks (g : GameConfig) (s : AgentState) :
    List TickInput → AgentState × List Bool
  | [] => (s, [])
  | inp :: rest =>
    let r := OnScheduledTick g s inp
    let r2 := runTicks g r.1 rest
    (r2.1, r.2 :: r2.2)

/-- Translation of `eAIBase.EEKilled`: when a trajectory is registered,
append `GetWaypoint()` to it and append `GetWaypoint()` (called a second
time, on the same position and clock) to the session aggregate's
`m_AIDeathPoints`, threaded here as `deathPoints`; with no trajectory the
body does nothing. -/
def EEKilled (s : AgentState) (deathPoints : List Waypoint) (pos : Vec3)
    (timeMs : Nat) : AgentState × List Waypoint :=
  match s.m_AIWayPoints with
  | none => (s, deathPoints)
  | some wps =>
    ({ s with m_AIWayPoints := some (wps ++ [GetWaypoint pos timeMs]) },
     deathPoints ++ [GetWaypoint pos timeMs])

/-- The engine's death event: the entity is killed, after which `IsAlive()`
reports false, and the `EEKilled` hook runs. -/
def killEvent (s : AgentState) (deathPoints : List Waypoint) (pos : Vec3)
    (timeMs : Nat) : AgentState × List Waypoint :=
  EEKilled { s with alive := false } deathPoints pos timeMs

/-- Formalization of the spec's throttle description (§8, claim C1): the
controller fires at tick `k` iff the cumulative sum of `deltaTime` since the
last fire (or since session start, starting from `acc = 0`) first reaches the
applicable threshold — `thrV` in the special mobility state, `thrN`
otherwise — and after firing the accumulator is exactly `0`. Inputs are
`(deltaTime, isInSpecialMobilityState)` pairs. -/
def specFireList (thrN thrV : ℚ) : ℚ → List (ℚ × Bool) → List Bool
  | _, [] => []
  | acc, (d, veh) :: rest =>
    let c := acc + d
    if (if veh then thrV else thrN) ≤ c then
      true :: specFireList thrN thrV 0 rest
    else
      false :: specFireList thrN thrV c rest

/-- Translation of `MissionServer.HEATMAP_PROFILE_FOLDER`. -/
def HEATMAP_PROFILE_FOLDER : String := "$profile:Heatmap"

/-- Translation of `MissionServer.AUTOSAVE_INTERVAL` (seconds). -/
def AUTOSAVE_INTERVAL : ℚ := 120

/-- The persistence-relevant state of `MissionServer`: the autosave
accumulator `m_AutosaveTimer` and the session file path `m_SessionFileName`
(field initializers `0` and `""`). -/
structure MissionState where
  m_AutosaveTimer : ℚ
  m_SessionFileName : String
  deriving DecidableEq, Repr

/-- The session file name computed by `MissionServer.OnInit`: plain integer
concatenation (no zero-padding) of the calendar year, month, day, hour and
minute from `GetDate`, and of `second = GetGame().GetTime() % 60`, the
millisecond simulation clock reduced mod 60. -/
def buildSessionFileName (year month day hour minute : Nat) (timeMs : Nat) :
    String :=
  HEATMAP_PROFILE_FOLDER ++ "/session_" ++ toString year ++ "-"
    ++ toString month ++ "-" ++ toString day ++ "_" ++ toString hour ++ "-"
    ++ toString minute ++ "-" ++ toString (timeMs % 60) ++ "_Heatmap.json"

/-- The result of `MissionServer.OnInit`: the mission state, and whether
`MakeDirectory` was invoked (it is called only when the profile folder does
not already exist). -/
structure InitResult where
  state : MissionState
  directoryCreateAttempted : Bool
  deriving DecidableEq, Repr

/-- Translation of `MissionServer.OnInit`: if the profile folder does not
exist, call `MakeDirectory` — whose success flag `mkdirOk` the source
discards (no check, no warning) — then unconditionally compute
`m_SessionFileName` from the calendar date and the simulation clock. -/
def OnInit (fileExists mkdirOk : Bool)
    (year month day hour minute : Nat) (timeMs : Nat) : InitResult :=
  { state :=
      { m_AutosaveTimer := 0,
        m_SessionFileName := buildSessionFileName year month day hour minute timeMs },
    directoryCreateAttempted := !fileExists }

/-- Translation of `MissionServer.SaveHeatmapData`: when `m_SessionFileName`
is non-empty, call `JsonSaveFile` on it — modelled as `some path`, the
attempted write; otherwise no write is attempted (`none`). -/
def SaveHeatmapData (s : MissionState) : Option String :=
  if s.m_SessionFileName ≠ "" then some s.m_SessionFileName else none

/-- Translation of `MissionServer.OnUpdate`: add `timeslice` to
`m_AutosaveTimer`; once it reaches `AUTOSAVE_INTERVAL`, zero it and call
`SaveHeatmapData`. Returns the new state and the attempted write, if any. -/
def OnUpdate (s : MissionState) (timeslice : ℚ) : MissionState × Option String :=
  let t := s.m_AutosaveTimer + timeslice
  if AUTOSAVE_INTERVAL ≤ t then
    ({ s with m_AutosaveTimer := 0 }, SaveHeatmapData s)
  else
    ({ s with m_AutosaveTimer := t }, none)

/-- Translation of `MissionServer.OnMissionFinish`: one unconditional call to
`SaveHeatmapData`, with no change to the mission state. -/
def OnMissionFinish (s : MissionState) : MissionState × Option String :=
  (s, SaveHeatmapData s)

/-- A finite sequence of `OnUpdate` ticks, returning the final state and the
per-tick list of attempted writes. -/
def runUpdates (s : MissionState) : List ℚ → MissionState × List (Option String)
  | [] => (s, [])
  | ts :: rest =>
    let r := OnUpdate s ts
    let r2 := runUpdates r.1 rest
    (r2.1, r.2 :: r2.2)

/-- Formalization of the spec's autosave description (§8, claim C7): the
flush fires at tick `k` iff the cumulative sum of `timeslice` since the last
flush (or session start) first reaches `AUTOSAVE_INTERVAL`, after which the
accumulator resets to `0`. -/
def specFlushList : ℚ → List ℚ → List Bool
  | _, [] => []
  | acc, ts :: rest =>
    let c := acc + ts
    if AUTOSAVE_INTERVAL ≤ c then true :: specFlushList 0 rest
    else false :: specFlushList c rest

/-- An entity that is not selected or not alive is rejected by the guard of
`OnScheduledTick`: no waypoint, no state change. -/
theorem OnScheduledTick_ineligible (g : GameConfig) (s : AgentState)
    (inp : TickInput) (h : s.alive = false ∨ s.selected = false) :
    OnScheduledTick g s inp = (s, false) := by
  obtain ⟨acc, wp, al, sel⟩ := s
  cases wp with
  | none => rfl
  | some wps =>
    have hcond : (!sel || !al) = true := by
      rcases h with h | h <;> simp_all
    simp [OnScheduledTick, hcond]

/-- An entity that is not selected or not alive stays frozen over any finite
sequence of scheduler ticks. -/
theorem runTicks_ineligible (g : GameConfig) (s : AgentState)
    (h : s.alive = false ∨ s.selected = false) :
    ∀ inputs : List TickInput,
      runTicks g s inputs = (s, List.replicate inputs.length false)
  | [] => rfl
  | inp :: rest => by
    simp [runTicks, OnScheduledTick_ineligible g s inp h,
      runTicks_ineligible g s h rest, List.replicate]

/-- Over a stretch of eligible ticks in which the throttle never fires, the
accumulator ends at its starting value plus the sum of the tick deltas, and
the trajectory is untouched. -/
theorem runTicks_no_fire_acc (g : GameConfig) :
    ∀ (inputs : List TickInput) (acc : ℚ) (wps : List Waypoint),
      (runTicks g ⟨acc, some wps, true, true⟩ inputs).2
          = List.replicate inputs.length false →
      (runTicks g ⟨acc, some wps, true, true⟩ inputs).1
        = ⟨acc + (inputs.map TickInput.deltaTime).sum, some wps, true, true⟩
  | [], acc, wps => fun _ => by simp [runTicks]
  | inp :: rest, acc, wps => fun hnf => by
    by_cases hc : (g.HEATMAP_TICK_TIME_VEHICLE ≤ acc + inp.deltaTime
        ∧ inp.isInVehicle = true) ∨ g.HEATMAP_TICK_TIME ≤ acc + inp.deltaTime
    · exfalso
      simp [runTicks, OnScheduledTick, hc, List.replicate_succ] at hnf
    · have hstep : runTicks g ⟨acc, some wps, true, true⟩ (inp :: rest)
          = ((runTicks g ⟨acc + inp.deltaTime, some wps, true, true⟩ rest).1,
             false :: (runTicks g ⟨acc + inp.deltaTime, some wps, true, true⟩ rest).2) := by
        simp [runTicks, OnScheduledTick, hc]
      rw [hstep] at hnf ⊢
      simp only [List.length_cons, List.replicate_succ, List.cons.injEq] at hnf
      rw [runTicks_no_fire_acc g rest (acc + inp.deltaTime) wps hnf.2]
      simp [add_assoc]

/-- Starting from an eligible agent, the fire decisions of the translated
`OnScheduledTick` agree, tick by tick, with the spec-side cumulative-sum
model `specFireList`, for any starting accumulator value, provided the
vehicle threshold does not exceed the normal one. -/
theorem runTicks_fires_eq_spec (g : GameConfig)
    (hvn : g.HEATMAP_TICK_TIME_VEHICLE ≤ g.HEATMAP_TICK_TIME) :
    ∀ (inputs : List TickInput) (acc : ℚ) (wps : List Waypoint),
      (runTicks g ⟨acc, some wps, true, true⟩ inputs).2
        = specFireList g.HEATMAP_TICK_TIME g.HEATMAP_TICK_TIME_VEHICLE acc
            (inputs.map fun i => (i.deltaTime, i.isInVehicle))
  | [], _, _ => rfl
  | inp :: rest, acc, wps => by
    cases hveh : inp.isInVehicle with
    | true =>
      by_cases hc : g.HEATMAP_TICK_TIME_VEHICLE ≤ acc + inp.deltaTime
      · simp [runTicks, OnScheduledTick, specFireList, hveh, hc,
          runTicks_fires_eq_spec g hvn rest 0 (wps ++ [GetWaypoint inp.pos inp.timeMs])]
      · have hc2 : ¬ g.HEATMAP_TICK_TIME ≤ acc + inp.deltaTime :=
          fun h => hc (le_trans hvn h)
        simp [runTicks, OnScheduledTick, specFireList, hveh, hc, hc2,
          runTicks_fires_eq_spec g hvn rest (acc + inp.deltaTime) wps]
    | false =>
      by_cases hc : g.HEATMAP_TICK_TIME ≤ acc + inp.deltaTime
      · simp [runTicks, OnScheduledTick, specFireList, hveh, hc,
          runTicks_fires_eq_spec g hvn rest 0 (wps ++ [GetWaypoint inp.pos inp.timeMs])]
      · simp [runTicks, OnScheduledTick, specFireList, hveh, hc,
          runTicks_fires_eq_spec g hvn rest (acc + inp.deltaTime) wps]

/-- With a non-empty session file name, a write is attempted exactly at the
ticks where the spec-side cumulative model `specFlushList` flushes, for any
starting accumulator value. -/
theorem runUpdates_isSome_eq_spec (n : String) (hn : n ≠ "") :
    ∀ (tss : List ℚ) (acc : ℚ),
      ((runUpdates ⟨acc, n⟩ tss).2).map Option.isSome = specFlushList acc tss
  | [], _ => rfl
  | ts :: rest, acc => by
    by_cases hc : AUTOSAVE_INTERVAL ≤ acc + ts
    · simp [runUpdates, OnUpdate, specFlushList, hc, SaveHeatmapData, hn,
        runUpdates_isSome_eq_spec n hn rest 0]
    · simp [runUpdates, OnUpdate, specFlushList, hc,
        runUpdates_isSome_eq_spec n hn rest (acc + ts)]

/-- The computed session file name is never the empty string. -/
theorem buildSessionFileName_ne_empty (y mo dd hh mi t : Nat) :
    buildSessionFileName y mo dd hh mi t ≠ "" := by
  intro hc
  have hlen := congrArg String.length hc
  rw [buildSessionFileName, HEATMAP_PROFILE_FOLDER] at hlen
  simp only [String.length_append] at hlen
  rw [show ("$profile:Heatmap" : String).length = 16 from rfl,
    show ("" : String).length = 0 from rfl] at hlen
  omega

/-- Claim C1 counterexample: a freshly selected agent has its accumulator
initialized to `float.MAX`, so the very first eligible tick fires even
though the cumulative `deltaTime` since session start (one tick of `1` s,
thresholds `10` s / `2` s) has not reached any threshold: the code appends a
waypoint while the spec-side cumulative model says no fire. -/
theorem throttle_first_tick_cex :
    (runTicks exampleConfig (OnSelectPlayer initAgent)
        [⟨⟨0, 0, 0⟩, 0, 1, false⟩]).2 = [true]
      ∧ specFireList exampleConfig.HEATMAP_TICK_TIME
          exampleConfig.HEATMAP_TICK_TIME_VEHICLE 0 [(1, false)] = [false] := by
  constructor
  · have h10 : exampleConfig.HEATMAP_TICK_TIME ≤ floatMax + 1 := by
      show (10 : ℚ) ≤ floatMax + 1
      rw [floatMax]
      norm_num
    simp [runTicks, OnScheduledTick, OnSelectPlayer, initAgent, h10]
  · have hn : ¬ ((10 : ℚ) ≤ 0 + 1) := by norm_num
    simp [specFireList, exampleConfig, hn]

/-- Claim C1 (amended): once the accumulator is `0` — which holds after every
fire, and in particular after the always-firing first eligible tick — the
throttle fires at tick `k` iff the cumulative sum of `deltaTime` since the
last fire first reaches the applicable threshold at tick `k` (given
`specialThreshold ≤ normalThreshold`); and immediately after any fire the
accumulator equals exactly `0`, not accumulator-minus-threshold. -/
theorem throttle_fires_iff_cumulative (g : GameConfig)
    (hvn : g.HEATMAP_TICK_TIME_VEHICLE ≤ g.HEATMAP_TICK_TIME)
    (wps : List Waypoint) (inputs : List TickInput) :
    (runTicks g ⟨0, some wps, true, true⟩ inputs).2
        = specFireList g.HEATMAP_TICK_TIME g.HEATMAP_TICK_TIME_VEHICLE 0
            (inputs.map fun i => (i.deltaTime, i.isInVehicle))
      ∧ (∀ (s : AgentState) (inp : TickInput),
          (OnScheduledTick g s inp).2 = true →
          (OnScheduledTick g s inp).1.m_HeatmapTime = 0) := by
  refine ⟨runTicks_fires_eq_spec g hvn inputs 0 wps, ?_⟩
  intro s inp hfire
  obtain ⟨acc, wp, al, sel⟩ := s
  cases wp with
  | none => simp [OnScheduledTick] at hfire
  | some wps2 =>
    by_cases hg : (!sel || !al) = true
    · simp [OnScheduledTick, hg] at hfire
    · by_cases hc : (g.HEATMAP_TICK_TIME_VEHICLE ≤ acc + inp.deltaTime
          ∧ inp.isInVehicle = true) ∨ g.HEATMAP_TICK_TIME ≤ acc + inp.deltaTime
      · simp [OnScheduledTick, hg, hc]
      · simp [OnScheduledTick, hg, hc] at hfire

/-- Witness for `throttle_fires_iff_cumulative` at the example thresholds on
a two-tick sequence. -/
theorem throttle_fires_iff_cumulative_witness :
    (runTicks exampleConfig ⟨0, some [], true, true⟩
        [⟨⟨0, 0, 0⟩, 0, 4, false⟩, ⟨⟨0, 0, 0⟩, 1000, 7, false⟩]).2
      = specFireList exampleConfig.HEATMAP_TICK_TIME
          exampleConfig.HEATMAP_TICK_TIME_VEHICLE 0 [(4, false), (7, false)] :=
  (throttle_fires_iff_cumulative exampleConfig
    (by show (2 : ℚ) ≤ 10; norm_num) []
    [⟨⟨0, 0, 0⟩, 0, 4, false⟩, ⟨⟨0, 0, 0⟩, 1000, 7, false⟩]).1

/-- Claim C3: on an eligible tick the throttle fires iff either the updated
accumulator has reached the vehicle threshold while the entity is in a
vehicle, or it has reached the normal threshold regardless of state; and
consequently, a fire on a non-vehicle tick that follows a fire (accumulator
`0`) across any stretch of non-firing ticks requires at least
`HEATMAP_TICK_TIME` of accumulated `deltaTime`. -/
theorem throttle_or_semantics (g : GameConfig) :
    (∀ (s : AgentState) (inp : TickInput) (wps : List Waypoint),
        s.m_AIWayPoints = some wps → s.alive = true → s.selected = true →
        ((OnScheduledTick g s inp).2 = true ↔
          ((g.HEATMAP_TICK_TIME_VEHICLE ≤ s.m_HeatmapTime + inp.deltaTime
              ∧ inp.isInVehicle = true)
            ∨ g.HEATMAP_TICK_TIME ≤ s.m_HeatmapTime + inp.deltaTime)))
      ∧ (∀ (wps : List Waypoint) (inputs : List TickInput) (lastInp : TickInput),
          lastInp.isInVehicle = false →
          (runTicks g ⟨0, some wps, true, true⟩ inputs).2
            = List.replicate inputs.length false →
          (OnScheduledTick g (runTicks g ⟨0, some wps, true, true⟩ inputs).1
              lastInp).2 = true →
          g.HEATMAP_TICK_TIME ≤ (inputs.map TickInput.deltaTime).sum
            + lastInp.deltaTime) := by
  constructor
  · intro s inp wps hw hal hsel
    obtain ⟨acc, wp, al, sel⟩ := s
    obtain rfl : wp = some wps := hw
    obtain rfl : al = true := hal
    obtain rfl : sel = true := hsel
    by_cases hc : (g.HEATMAP_TICK_TIME_VEHICLE ≤ acc + inp.deltaTime
        ∧ inp.isInVehicle = true) ∨ g.HEATMAP_TICK_TIME ≤ acc + inp.deltaTime
    · simp [OnScheduledTick, hc]
    · simp [OnScheduledTick, hc]
  · intro wps inputs lastInp hlv hnf hfire
    rw [runTicks_no_fire_acc g inputs 0 wps hnf, zero_add] at hfire
    by_cases hc : (g.HEATMAP_TICK_TIME_VEHICLE
        ≤ (inputs.map TickInput.deltaTime).sum + lastInp.deltaTime
        ∧ lastInp.isInVehicle = true) ∨ g.HEATMAP_TICK_TIME
        ≤ (inputs.map TickInput.deltaTime).sum + lastInp.deltaTime
    · rcases hc with ⟨_, hveh⟩ | hno
      · rw [hlv] at hveh
        cases hveh
      · exact hno
    · simp [OnScheduledTick, hc] at hfire

/-- Witness for `throttle_or_semantics`: at the example thresholds, an
eligible agent with accumulator `0` fires on a `10` s non-vehicle tick. -/
theorem throttle_or_semantics_witness :
    (OnScheduledTick exampleConfig ⟨0, some [], true, true⟩
        ⟨⟨0, 0, 0⟩, 0, 10, false⟩).2 = true :=
  ((throttle_or_semantics exampleConfig).1 ⟨0, some [], true, true⟩
    ⟨⟨0, 0, 0⟩, 0, 10, false⟩ [] rfl rfl rfl).mpr
    (Or.inr (by show (10 : ℚ) ≤ 0 + 10; norm_num))

/-- Claim C6: on the death event of an agent, if a trajectory is registered
then exactly one final waypoint is appended to it and the same waypoint value
is appended to the flat agent-death log; with no registered trajectory the
event changes nothing and raises no error. -/
theorem agent_death_dual_write (s : AgentState) (dp : List Waypoint)
    (pos : Vec3) (timeMs : Nat) :
    (∀ wps, s.m_AIWayPoints = some wps →
        EEKilled s dp pos timeMs
          = ({ s with m_AIWayPoints := some (wps ++ [GetWaypoint pos timeMs]) },
             dp ++ [GetWaypoint pos timeMs]))
      ∧ (s.m_AIWayPoints = none → EEKilled s dp pos timeMs = (s, dp)) := by
  obtain ⟨acc, wp, al, sel⟩ := s
  constructor
  · intro wps hw
    obtain rfl : wp = some wps := hw
    rfl
  · intro hw
    obtain rfl : wp = (none : Option (List Waypoint)) := hw
    rfl

/-- Witness for `agent_death_dual_write` on a concrete tracked agent. -/
theorem agent_death_dual_write_witness :
    EEKilled ⟨0, some [], true, true⟩ [] ⟨1, 2, 3⟩ 5000
      = (⟨0, some [GetWaypoint ⟨1, 2, 3⟩ 5000], true, true⟩,
         [GetWaypoint ⟨1, 2, 3⟩ 5000]) :=
  (agent_death_dual_write ⟨0, some [], true, true⟩ [] ⟨1, 2, 3⟩ 5000).1 [] rfl

/-- Claim C8: an entity that is not alive or not under active tracking
selection never produces a sample and never changes throttle state —
over arbitrarily many scheduler ticks, every tick returns false and the
whole agent state (accumulator included) is left unchanged. -/
theorem untracked_tick_noop (g : GameConfig) (s : AgentState)
    (inputs : List TickInput) (h : s.alive = false ∨ s.selected = false) :
    runTicks g s inputs = (s, List.replicate inputs.length false) :=
  runTicks_ineligible g s h inputs

/-- Witness for `untracked_tick_noop`: a dead but selected agent with a large
accumulator is frozen across a tick. -/
theorem untracked_tick_noop_witness :
    runTicks exampleConfig ⟨5, some [], false, true⟩
        [⟨⟨0, 0, 0⟩, 0, 100, false⟩]
      = (⟨5, some [], false, true⟩, [false]) :=
  untracked_tick_noop exampleConfig ⟨5, some [], false, true⟩
    [⟨⟨0, 0, 0⟩, 0, 100, false⟩] (Or.inl rfl)

/-- Claim C9: for a tracked agent, the waypoint appended by the death event
is the last element ever appended to its trajectory — after the death event
has fired, any finite sequence of scheduler ticks leaves the trajectory
unchanged and produces no sample. -/
theorem death_waypoint_last (g : GameConfig) (s : AgentState)
    (dp : List Waypoint) (pos : Vec3) (timeMs : Nat)
    (inputs : List TickInput) (wps : List Waypoint)
    (hw : s.m_AIWayPoints = some wps) :
    (runTicks g (killEvent s dp pos timeMs).1 inputs).1.m_AIWayPoints
        = some (wps ++ [GetWaypoint pos timeMs])
      ∧ (runTicks g (killEvent s dp pos timeMs).1 inputs).2
        = List.replicate inputs.length false := by
  obtain ⟨acc, wp, al, sel⟩ := s
  obtain rfl : wp = some wps := hw
  have hk : (killEvent ⟨acc, some wps, al, sel⟩ dp pos timeMs).1
      = ⟨acc, some (wps ++ [GetWaypoint pos timeMs]), false, sel⟩ := rfl
  rw [hk, runTicks_ineligible g ⟨acc, some (wps ++ [GetWaypoint pos timeMs]), false, sel⟩
    (Or.inl rfl) inputs]
  exact ⟨rfl, rfl⟩

/-- Witness for `death_waypoint_last`: a tick after a concrete death leaves
the trajectory ending at the death waypoint. -/
theorem death_waypoint_last_witness :
    (runTicks exampleConfig
        (killEvent ⟨0, some [], true, true⟩ [] ⟨1, 2, 3⟩ 2000).1
        [⟨⟨9, 9, 9⟩, 3000, 100, false⟩]).1.m_AIWayPoints
      = some ([] ++ [GetWaypoint ⟨1, 2, 3⟩ 2000]) :=
  (death_waypoint_last exampleConfig ⟨0, some [], true, true⟩ [] ⟨1, 2, 3⟩ 2000
    [⟨⟨9, 9, 9⟩, 3000, 100, false⟩] [] rfl).1

/-- Claim C2 counterexample: after `OnMissionFinish` has run on an
initialized mission (file name `"f"`, accumulator `0`), a subsequent
scheduler tick of `120` s is not a no-op — it attempts another write to the
session file, because the source sets no finalized flag. -/
theorem finalize_not_terminal_cex :
    (OnMissionFinish ⟨0, "f"⟩).2 = some "f"
      ∧ (OnUpdate (OnMissionFinish ⟨0, "f"⟩).1 120).2 = some "f" := by
  have hc : AUTOSAVE_INTERVAL ≤ (120 : ℚ) := by
    rw [AUTOSAVE_INTERVAL]
  have hf : ("f" : String) ≠ "" := by decide
  constructor
  · simp [OnMissionFinish, SaveHeatmapData, hf]
  · simp [OnMissionFinish, OnUpdate, SaveHeatmapData, hc, hf]

/-- Claim C2 (amended): `OnMissionFinish` performs one flush call regardless
of the autosave accumulator's value (a write is attempted whenever the
session file name is non-empty) and leaves the mission state unchanged;
however subsequent scheduler ticks are not disabled — a later tick that
brings the accumulator to `AUTOSAVE_INTERVAL` attempts a further write. -/
theorem finalize_flush_unconditional (s : MissionState)
    (h0 : 0 ≤ s.m_AutosaveTimer) (hn : s.m_SessionFileName ≠ "") :
    (OnMissionFinish s).2 = some s.m_SessionFileName
      ∧ (OnMissionFinish s).1 = s
      ∧ (OnUpdate (OnMissionFinish s).1 AUTOSAVE_INTERVAL).2
        = some s.m_SessionFileName := by
  have hs : SaveHeatmapData s = some s.m_SessionFileName := by
    simp [SaveHeatmapData, hn]
  refine ⟨hs, rfl, ?_⟩
  have hc : AUTOSAVE_INTERVAL ≤ s.m_AutosaveTimer + AUTOSAVE_INTERVAL := by
    linarith
  simp [OnMissionFinish, OnUpdate, hc, hs]

/-- Witness for `finalize_flush_unconditional` on a mid-cycle accumulator. -/
theorem finalize_flush_unconditional_witness :
    (OnMissionFinish ⟨7, "f"⟩).2 = some "f"
      ∧ (OnMissionFinish ⟨7, "f"⟩).1 = ⟨7, "f"⟩
      ∧ (OnUpdate (OnMissionFinish ⟨7, "f"⟩).1 AUTOSAVE_INTERVAL).2
        = some "f" :=
  finalize_flush_unconditional ⟨7, "f"⟩
    (by show (0 : ℚ) ≤ 7; norm_num) (by decide)

/-- Claim C4 counterexample: for a session starting at calendar time
2024-03-05 14:07:33, the engine's `GetDate` supplies only year, month, day,
hour and minute; the seconds component of the file name is
`GetGame().GetTime() % 60` — with simulation clock `0` ms the produced path
ends in `14-7-0`, not the claimed `14-7-33`. -/
theorem session_filename_cex :
    (OnInit true true 2024 3 5 14 7 0).state.m_SessionFileName
        = "$profile:Heatmap/session_2024-3-5_14-7-0_Heatmap.json"
      ∧ (OnInit true true 2024 3 5 14 7 0).state.m_SessionFileName
        ≠ "$profile:Heatmap/session_2024-3-5_14-7-33_Heatmap.json" := by
  constructor
  · rfl
  · decide

/-- Claim C4 (amended): the session file path is computed once at session
start as the unpadded concatenation
`$profile:Heatmap/session_{y}-{m}-{d}_{h}-{min}-{s}_Heatmap.json`, where
year/month/day/hour/minute come from the calendar date and the seconds
component is the elapsed simulation clock value modulo 60; a session with
calendar date 2024-03-05 14:07 whose simulation clock is congruent to 33
modulo 60 produces `$profile:Heatmap/session_2024-3-5_14-7-33_Heatmap.json`. -/
theorem session_filename_amended (timeMs : Nat) (h : timeMs % 60 = 33) :
    (OnInit true true 2024 3 5 14 7 timeMs).state.m_SessionFileName
      = "$profile:Heatmap/session_2024-3-5_14-7-33_Heatmap.json" := by
  show buildSessionFileName 2024 3 5 14 7 timeMs = _
  rw [buildSessionFileName, h]
  rfl

/-- Witness for `session_filename_amended` at simulation clock `93`. -/
theorem session_filename_amended_witness :
    (OnInit true true 2024 3 5 14 7 93).state.m_SessionFileName
      = "$profile:Heatmap/session_2024-3-5_14-7-33_Heatmap.json" :=
  session_filename_amended 93 rfl

/-- Claim C5 counterexample: when the profile folder does not exist and
`MakeDirectory` fails, `OnInit` still computes a non-empty session file name
and a subsequent flush still attempts a write — persistence does not degrade
to a no-op on directory-creation failure. -/
theorem dir_create_failure_cex :
    (OnInit false false 2024 3 5 14 7 0).state.m_SessionFileName ≠ ""
      ∧ SaveHeatmapData (OnInit false false 2024 3 5 14 7 0).state
        = some ((OnInit false false 2024 3 5 14 7 0).state.m_SessionFileName) := by
  constructor
  · decide
  · decide

/-- Claim C5 (amended): a failure to create the session folder is invisible
to the mod — the source discards the result of `MakeDirectory`, so `OnInit`
behaves identically whether directory creation succeeds or fails: the
session file name is still computed (and is never empty), and every flush
still attempts a write; sampling and aggregation are unaffected since the
entity-side code never consults the persistence state. -/
theorem dir_create_failure_ignored (fe mkOk : Bool) (y mo dd hh mi t : Nat) :
    OnInit fe mkOk y mo dd hh mi t = OnInit fe true y mo dd hh mi t
      ∧ (OnInit fe mkOk y mo dd hh mi t).state.m_SessionFileName ≠ ""
      ∧ SaveHeatmapData (OnInit fe mkOk y mo dd hh mi t).state
        = some ((OnInit fe mkOk y mo dd hh mi t).state.m_SessionFileName) := by
  have hne : (OnInit fe mkOk y mo dd hh mi t).state.m_SessionFileName ≠ "" :=
    buildSessionFileName_ne_empty y mo dd hh mi t
  exact ⟨rfl, hne, by simp [SaveHeatmapData, hne]⟩

/-- Claim C7: with `AUTOSAVE_INTERVAL = 120` s, for an initialized mission
the ticks at which a write is attempted are exactly the ticks at which the
spec-side cumulative model first reaches `120` s since the last flush (the
accumulator then resets to `0`); in particular four ticks of `timeslice = 30`
attempt exactly one write, at the fourth tick, and leave the accumulator
at `0`. -/
theorem autosave_flush_cadence :
    (∀ (n : String) (tss : List ℚ), n ≠ "" →
        ((runUpdates ⟨0, n⟩ tss).2).map Option.isSome = specFlushList 0 tss)
      ∧ runUpdates ⟨0, "f"⟩ [30, 30, 30, 30]
        = (⟨0, "f"⟩, [none, none, none, some "f"]) := by
  constructor
  · intro n tss hn
    exact runUpdates_isSome_eq_spec n hn tss 0
  · have hf : ("f" : String) ≠ "" := by decide
    norm_num [runUpdates, OnUpdate, SaveHeatmapData, AUTOSAVE_INTERVAL, hf]

/-- Witness for `autosave_flush_cadence` on the four-tick scenario. -/
theorem autosave_flush_cadence_witness :
    ((runUpdates ⟨0, "f"⟩ [30, 30, 30, 30]).2).map Option.isSome
      = specFlushList 0 [30, 30, 30, 30] :=
  autosave_flush_cadence.1 "f" [30, 30, 30, 30] (by decide)

/-- Claim C10: if the persistence manager was never initialized — the
session file name is the empty string — then every flush, whether from the
autosave tick or from finalization, attempts no write and raises no error. -/
theorem uninitialized_save_noop (s : MissionState) (ts : ℚ)
    (h : s.m_SessionFileName = "") :
    SaveHeatmapData s = none
      ∧ (OnUpdate s ts).2 = none
      ∧ (OnMissionFinish s).2 = none := by
  have hs : SaveHeatmapData s = none := by simp [SaveHeatmapData, h]
  refine ⟨hs, ?_, hs⟩
  by_cases hc : AUTOSAVE_INTERVAL ≤ s.m_AutosaveTimer + ts
  · simp [OnUpdate, hc, hs]
  · simp [OnUpdate, hc]

/-- Witness for `uninitialized_save_noop` on the default mission state. -/
theorem uninitialized_save_noop_witness :
    SaveHeatmapData ⟨0, ""⟩ = none
      ∧ (OnUpdate ⟨0, ""⟩ 500).2 = none
      ∧ (OnMissionFinish ⟨0, ""⟩).2 = none :=
  uninitialized_save_noop ⟨0, ""⟩ 500 rfl
